import Mathlib

/-!
Verification of the QP-Segregate ingestion-and-classification pipeline.

Shallow embedding of the pipeline code in `backend/app`:
  * `services/llm_extraction_service.py`   (LLM question extraction)
  * `services/llm_classification_service.py` (LLM unit classification)
  * `services/classification_service.py`   (TF-IDF unit classification)
  * `tasks/processing.py`                  (dedup + persistence stage)
  * `api/admin.py` (`submit_metadata`)     (synchronous orchestrator)

External effects (the OpenAI API, `json.loads`, the TF-IDF vectorizer,
database commits) are modelled as explicit inputs; everything the
repository's own code computes is translated directly.
-/

namespace QPSeg

/-! ## A model of decoded JSON values (the result of Python `json.loads`) -/

inductive Json where
  | null
  | bool (b : Bool)
  | num (q : ℚ)
  | str (s : String)
  | arr (elems : List Json)
  | obj (fields : List (String × Json))

/-- Python `d[k]` / `d.get(k)` on a decoded JSON object: first binding wins
(keys of a decoded JSON object are unique, so first = last). Non-objects
have no fields. -/
def Json.getField : Json → String → Option Json
  | .obj fs, k => (fs.find? (fun p => p.1 = k)).map Prod.snd
  | _, _ => none

/-- Python truthiness of a decoded JSON value (`if x:`). -/
def Json.truthy : Json → Bool
  | .null => false
  | .bool b => b
  | .num q => q ≠ 0
  | .str s => s ≠ ""
  | .arr xs => !xs.isEmpty
  | .obj fs => !fs.isEmpty

/-- Python `str(x)` for a decoded JSON value.  The rendering of composite
values is abbreviated (the pipeline only ever tests the result for
emptiness after `strip()`, and every non-string rendering is non-empty). -/
def pyStr : Json → String
  | .null => "None"
  | .bool b => if b then "True" else "False"
  | .num q => toString q
  | .str s => s
  | .arr _ => "[…]"
  | .obj _ => "{…}"

/-- Python `str.strip()`: surrounding whitespace removed. -/
def pyStrip (s : String) : String :=
  ⟨((s.data.dropWhile Char.isWhitespace).reverse.dropWhile
    Char.isWhitespace).reverse⟩

/-- Python `str.lower()` (ASCII case folding suffices for the category
names the pipeline compares). -/
def pyLower (s : String) : String := ⟨s.data.map Char.toLower⟩

/-- The value of a non-empty all-digit character run. -/
def parseDigits : List Char → Option Nat
  | [] => none
  | cs =>
    if cs.all Char.isDigit then
      some (cs.foldl (fun n c => n * 10 + (c.toNat - 48)) 0)
    else none

/-- Python `int(s)` on a string: optional sign, digits, surrounding
whitespace allowed; `none` models `ValueError`. -/
def pyIntOfString (s : String) : Option Int :=
  match (pyStrip s).data with
  | '-' :: cs => (parseDigits cs).map (fun n => -(n : Int))
  | '+' :: cs => (parseDigits cs).map (fun n => (n : Int))
  | cs => (parseDigits cs).map (fun n => (n : Int))

/-- Python `int(x)` truncates rationals toward zero. -/
def ratTrunc (q : ℚ) : Int := if 0 ≤ q then ⌊q⌋ else ⌈q⌉

/-- Python `int(x)` on a decoded JSON value; `none` models
`ValueError`/`TypeError`.  (`int` accepts bools, numbers and numeric
strings.) -/
def pyInt : Json → Option Int
  | .bool b => some (if b then 1 else 0)
  | .num q => some (ratTrunc q)
  | .str s => pyIntOfString s
  | _ => none

/-! ## LLMExtractionService (`llm_extraction_service.py`) -/

/-- `_parse_marks`: `None` stays `None`; non-integers fail to `None`;
non-positive integers are dropped to `None`. -/
def parseMarks : Option Json → Option Int
  | none => none
  | some .null => none
  | some m =>
    match pyInt m with
    | none => none
    | some v => if v > 0 then some v else none

/-- `_parse_bloom_level`: integer in 1..6 or `None`. -/
def parseBloomLevel : Option Json → Option Int
  | none => none
  | some .null => none
  | some l =>
    match pyInt l with
    | none => none
    | some v => if 1 ≤ v ∧ v ≤ 6 then some v else none

/-- The canonical name of a Bloom level, `level_to_category` in
`_parse_bloom_category`. -/
def levelName : Int → Option String
  | 1 => some "Remembering"
  | 2 => some "Understanding"
  | 3 => some "Applying"
  | 4 => some "Analyzing"
  | 5 => some "Evaluating"
  | 6 => some "Creating"
  | _ => none

/-- The `bloom_map` of `_parse_bloom_category`, keyed by the lowercased
category string. -/
def bloomNameMap (s : String) : Option String :=
  match pyLower s with
  | "remembering" => some "Remembering"
  | "remember" => some "Remembering"
  | "understanding" => some "Understanding"
  | "understand" => some "Understanding"
  | "applying" => some "Applying"
  | "apply" => some "Applying"
  | "analyzing" => some "Analyzing"
  | "analyze" => some "Analyzing"
  | "evaluating" => some "Evaluating"
  | "evaluate" => some "Evaluating"
  | "creating" => some "Creating"
  | "create" => some "Creating"
  | _ => none

/-- The raw-level fallback lookup `level_to_category.get(level)` is keyed by
the raw decoded value: only an exact integer 1..6 (Python `bool` being an
int, `True` hashes equal to 1) hits a key. -/
def levelNameOfJson : Json → Option String
  | .num q => if q.den = 1 then levelName q.num else none
  | .bool b => if b then levelName 1 else none
  | _ => none

/-- The raw-level fallback of `_parse_bloom_category` (`if level:` then
`level_to_category.get(level)`). -/
def bloomFallback : Option Json → Option String
  | some l => if l.truthy then levelNameOfJson l else none
  | none => none

/-- `_parse_bloom_category`: a truthy category string is looked up in
`bloom_map`; otherwise fall back to the raw level value.  (A truthy
non-string category would raise in Python; such a question record is not
produced by the service contract and is modelled as falling through.) -/
def parseBloomCategory (category level : Option Json) : Option String :=
  match category with
  | some (.str s) =>
    if s ≠ "" then
      match bloomNameMap s with
      | some c => some c
      | none => bloomFallback level
    else bloomFallback level
  | _ => bloomFallback level

/-- One validated extracted question (the dict built by
`_validate_question`, plus the `has_subparts` flag added by
`_handle_subparts`).  `parent_question_number` is also set by
`_handle_subparts` but never read downstream and is omitted. -/
structure ExtractedQuestion where
  question_number : String
  question_text : String
  marks : Option Int
  bloom_taxonomy_level : Option Int
  bloom_category : Option String
  has_diagram : Bool
  has_subparts : Bool := false
deriving DecidableEq

/-- `_validate_question`: requires the `question_number` and
`question_text` keys, coerces both through `str(...).strip()`, drops the
record when the text is empty. -/
def validateQuestion (q : Json) : Option ExtractedQuestion :=
  match q.getField "question_number", q.getField "question_text" with
  | some qn, some qt =>
    if pyStrip (pyStr qt) = "" then none
    else
      some { question_number := pyStrip (pyStr qn)
             question_text := pyStrip (pyStr qt)
             marks := parseMarks (q.getField "marks")
             bloom_taxonomy_level := parseBloomLevel (q.getField "bloom_taxonomy_level")
             bloom_category := parseBloomCategory (q.getField "bloom_category")
               (q.getField "bloom_taxonomy_level")
             has_diagram := (q.getField "has_diagram").elim false Json.truthy }
  | _, _ => none

/-- Locating the questions array in `_parse_llm_response`: a dict with a
`questions` list, or a bare list; anything else is the
`Invalid response format` / `TypeError` error path. -/
def getQuestionsArray : Json → Option (List Json)
  | .obj fs =>
    match (Json.obj fs).getField "questions" with
    | some (.arr qs) => some qs
    | _ => none
  | .arr qs => some qs
  | _ => none

/-- `_parse_llm_response`.  Input `none` models a `json.JSONDecodeError`
from `json.loads` (the markdown-fence stripping that precedes the decode
is part of the decode model). -/
def parseLLMResponse (decoded : Option Json) : Except String (List ExtractedQuestion) :=
  match decoded with
  | none => .error "Failed to parse LLM response as JSON"
  | some data =>
    match getQuestionsArray data with
    | none => .error "Error processing LLM response: Invalid response format"
    | some questions => .ok (questions.filterMap validateQuestion)

/-- The subpart test of `_handle_subparts`:
`re.search(r'[a-z]|\(|\)', question_num.lower())`. -/
def isSubpartNumber (qn : String) : Bool :=
  (pyLower qn).data.any
    (fun c => (('a' ≤ c ∧ c ≤ 'z') : Bool) || c = '(' || c = ')')

/-- `_handle_subparts`. -/
def handleSubparts (qs : List ExtractedQuestion) : List ExtractedQuestion :=
  qs.map (fun q => { q with has_subparts := isSubpartNumber q.question_number })

/-- `extract_questions_with_llm`: the OpenAI call either fails outright
(`.error`) or yields a response body, which is decoded and parsed; every
failure is re-raised with the `LLM extraction failed` prefix. -/
def extractionStage (resp : Except String (Option Json)) :
    Except String (List ExtractedQuestion) :=
  match resp with
  | .error e => .error ("LLM extraction failed: " ++ e)
  | .ok decoded =>
    match parseLLMResponse decoded with
    | .error e => .error ("LLM extraction failed: " ++ e)
    | .ok qs => .ok (handleSubparts qs)

/-! ## LLMClassificationService (`llm_classification_service.py`) -/

/-- One active syllabus unit as assembled by `_load_syllabus` (unit row
plus its decoded topic list). -/
structure SyllabusUnit where
  unit_id : Int
  unit_number : Int
  unit_name : String
  topics : List String
deriving DecidableEq

/-- The syllabus dict built by `_load_syllabus` for one course. -/
structure Syllabus where
  course_code : String
  units : List SyllabusUnit
deriving DecidableEq

/-- The `unit_lookup` dict `{u['unit_id']: u for u in units}`: on duplicate
ids the later entry overwrites the earlier one. -/
def unitLookup (units : List SyllabusUnit) (uid : Int) : Option SyllabusUnit :=
  units.reverse.find? (fun u => u.unit_id = uid)

/-- One entry of the LLM's classification response, as read by
`_apply_classifications` via `classification.get(...)`.  `unit_id = none`
models an absent or `null` unit id (a non-integer id compares unequal to
every integer key of `unit_lookup` and behaves like an unmatched one). -/
structure LLMClassification where
  unit_id : Option Int
  topic_tags : List String
  confidence : ℚ
deriving DecidableEq

/-- The empty dict `classifications.get(i, {})` falls back to. -/
def emptyClassification : LLMClassification :=
  { unit_id := none, topic_tags := [], confidence := 0 }

/-- One question with the classification fields added by
`_apply_classifications`. -/
structure ClassifiedQuestion where
  base : ExtractedQuestion
  unit_id : Option Int
  unit_name : Option String
  topic_tags : List String
  classification_confidence : ℚ
deriving DecidableEq

/-- The null classification (`unit_id=None`, no tags, zero confidence):
both the fallback branch of `_apply_classifications` and the
no-syllabus early return of `classify_questions_with_llm` write exactly
these fields. -/
def unclassified (q : ExtractedQuestion) : ClassifiedQuestion :=
  { base := q, unit_id := none, unit_name := none, topic_tags := [],
    classification_confidence := 0 }

/-- The per-question body of `_apply_classifications`: the unit id must be
truthy (`if unit_id and ...`, so Python's falsy `0` also fails) and present
in `unit_lookup`; then topic tags are filtered to the unit's own topics;
otherwise everything is reset to the null classification.  The final
confidence is `float(confidence) if confidence else 0.0`. -/
def applyClassification (units : List SyllabusUnit) (cls : Option LLMClassification)
    (q : ExtractedQuestion) : ClassifiedQuestion :=
  match (cls.getD emptyClassification).unit_id with
  | none => unclassified q
  | some uid =>
    if uid = 0 then unclassified q
    else
      match unitLookup units uid with
      | none => unclassified q
      | some u =>
        { base := q
          unit_id := some uid
          unit_name := some u.unit_name
          topic_tags := (cls.getD emptyClassification).topic_tags.filter
            (fun t => u.topics.contains t)
          classification_confidence :=
            if (cls.getD emptyClassification).confidence ≠ 0 then
              (cls.getD emptyClassification).confidence
            else 0 }

/-- The `enumerate(questions)` loop of `_apply_classifications`, with `i`
the running index into the classification dict. -/
def applyClassificationsFrom (units : List SyllabusUnit)
    (clsMap : Nat → Option LLMClassification) :
    Nat → List ExtractedQuestion → List ClassifiedQuestion
  | _, [] => []
  | i, q :: qs =>
    applyClassification units (clsMap i) q ::
      applyClassificationsFrom units clsMap (i + 1) qs

/-- `_apply_classifications`. -/
def applyClassifications (units : List SyllabusUnit)
    (clsMap : Nat → Option LLMClassification)
    (qs : List ExtractedQuestion) : List ClassifiedQuestion :=
  applyClassificationsFrom units clsMap 0 qs

/-- `classify_questions_with_llm`: without a syllabus every question is
returned unclassified; otherwise the OpenAI call plus response parse
(modelled by `llmResult`, a map from question index to response entry)
either fails for the whole batch — re-raised with the
`LLM classification failed` prefix — or is applied per question. -/
def classifyQuestionsWithLLM (syllabus : Option Syllabus)
    (llmResult : Except String (Nat → Option LLMClassification))
    (qs : List ExtractedQuestion) : Except String (List ClassifiedQuestion) :=
  match syllabus with
  | none => .ok (qs.map unclassified)
  | some syl =>
    if syl.units.isEmpty then .ok (qs.map unclassified)
    else
      match llmResult with
      | .error e => .error ("LLM classification failed: " ++ e)
      | .ok clsMap => .ok (applyClassifications syl.units clsMap qs)

/-! ## ClassificationService.classify_unit (`classification_service.py`) -/

/-- One unit of the Mongo syllabus document consumed by
`ClassificationService.classify_unit` (`unit['name']`,
`unit.get('topics', '')`). -/
structure CSUnit where
  unit_id : Int
  name : String
  topics : String
deriving DecidableEq

/-- `np.max`/`np.argmax` over the similarity row: the first index
attaining the maximum, together with the maximum.  `none` on the empty
row (where NumPy would raise). -/
def bestSim : List ℚ → Option (Nat × ℚ)
  | [] => none
  | x :: xs =>
    match bestSim xs with
    | none => some (0, x)
    | some (j, m) => if m > x then some (j + 1, m) else some (0, x)

/-- `classify_unit`.  The TF-IDF vectorization and cosine similarity of
the question text against each unit's `"{name} {topics}"` corpus entry are
computed by scikit-learn; the resulting similarity row (one score per
unit, in unit order) enters as `sims`.  `syllabus = none` models a missing
or `units`-less syllabus document. -/
def classify_unit (syllabus : Option (List CSUnit)) (sims : List ℚ) :
    Option Int × ℚ :=
  match syllabus with
  | none => (none, 0)
  | some units =>
    match bestSim sims with
    | none => (none, 0)
    | some (idx, maxSim) =>
      if maxSim > 3 / 10 then (units[idx]?.map (·.unit_id), maxSim)
      else (none, maxSim)

/-! ## Deduplication and persistence (`tasks/processing.py`) -/

/-- One question after `detect_duplicates` added its canonical fields. -/
structure DedupedQuestion where
  cls : ClassifiedQuestion
  is_canonical : Bool
  parent_question_id : Option Int
  similarity_score : Option ℚ
deriving DecidableEq

/-- `detect_duplicates`: the simplified policy marks every question
canonical, with no parent and no similarity score (paper-level duplicates
were already rejected in `submit_metadata`). -/
def detectDuplicates (qs : List ClassifiedQuestion) : List DedupedQuestion :=
  qs.map (fun q =>
    { cls := q, is_canonical := true, parent_question_id := none,
      similarity_score := none })

/-- The dict handed to `save_questions` for one question.  `none` on
`question_number`/`question_text` models the key being absent (the
`'question_number' not in question_data` checks); every other field is
read with a `.get` default.  `has_mathematical_notation` and
`page_number` are never set on the LLM pipeline's dicts and default to
`False`/`None`. -/
structure QuestionData where
  question_number : Option String
  question_text : Option String
  marks : Option Int
  bloom_taxonomy_level : Option Int
  bloom_category : Option String
  unit_id : Option Int
  unit_name : Option String
  topic_tags : List String
  classification_confidence : ℚ
  is_canonical : Bool
  parent_question_id : Option Int
  similarity_score : Option ℚ
  has_subparts : Bool
  has_mathematical_notation : Bool := false
  page_number : Option Int := none
deriving DecidableEq

/-- The dict a `DedupedQuestion` amounts to at the `save_questions`
boundary (the pipeline's dicts always carry both required keys). -/
def DedupedQuestion.toData (q : DedupedQuestion) : QuestionData :=
  { question_number := some q.cls.base.question_number
    question_text := some q.cls.base.question_text
    marks := q.cls.base.marks
    bloom_taxonomy_level := q.cls.base.bloom_taxonomy_level
    bloom_category := q.cls.base.bloom_category
    unit_id := q.cls.unit_id
    unit_name := q.cls.unit_name
    topic_tags := q.cls.topic_tags
    classification_confidence := q.cls.classification_confidence
    is_canonical := q.is_canonical
    parent_question_id := q.parent_question_id
    similarity_score := q.similarity_score
    has_subparts := q.cls.base.has_subparts }

/-- The `BloomLevel` enum of `models/question.py` (values 1–6). -/
inductive BloomLevel where
  | remember | understand | applying | analyze | evaluate | create
deriving DecidableEq

/-- `BloomLevel(v)`: enum construction by value; `none` is the
`ValueError` raised for a value outside 1–6. -/
def bloomLevelOfInt : Int → Option BloomLevel
  | 1 => some .remember
  | 2 => some .understand
  | 3 => some .applying
  | 4 => some .analyze
  | 5 => some .evaluate
  | 6 => some .create
  | _ => none

/-- The `BloomCategory` enum of `models/question.py`. -/
inductive BloomCategory where
  | remembering | understanding | applying | analyzing | evaluating | creating
deriving DecidableEq

/-- `BloomCategory(s)`: enum construction by value. -/
def bloomCategoryOfString : String → Option BloomCategory
  | "Remembering" => some .remembering
  | "Understanding" => some .understanding
  | "Applying" => some .applying
  | "Analyzing" => some .analyzing
  | "Evaluating" => some .evaluating
  | "Creating" => some .creating
  | _ => none

/-- `BloomLevel(x) if x else None`: the outer `none` is the `ValueError`
path (a truthy value outside the enum), which makes `save_questions` skip
the question. -/
def pyBloomLevel : Option Int → Option (Option BloomLevel)
  | none => some none
  | some v => if v = 0 then some none else (bloomLevelOfInt v).map some

/-- `BloomCategory(x) if x else None`, as `pyBloomLevel`. -/
def pyBloomCategory : Option String → Option (Option BloomCategory)
  | none => some none
  | some s => if s = "" then some none else (bloomCategoryOfString s).map some

/-- The `ReviewStatus` enum (added by
`migrations/add_question_review_fields.py`). -/
inductive ReviewStatus where
  | pending | approved | needsReview
deriving DecidableEq

/-- One persisted `Question` row as constructed by `save_questions`. -/
structure QuestionRow where
  question_id : Nat
  paper_id : Int
  course_code : String
  unit_id : Option Int
  question_number : String
  question_text : String
  marks : Option Int
  bloom_level : Option BloomLevel
  bloom_category : Option BloomCategory
  bloom_confidence : Option ℚ
  difficulty_level : Option String
  classification_confidence : ℚ
  is_canonical : Bool
  parent_question_id : Option Int
  similarity_score : Option ℚ
  has_subparts : Bool
  has_mathematical_notation : Bool
  page_number : Option Int
  topic_tags : Option (List String)
  is_reviewed : Bool
  review_status : ReviewStatus
deriving DecidableEq

/-- The `suggested_correction` JSON payload of a review entry. -/
structure SuggestedCorrection where
  unit_id : Option Int
  unit_name : Option String
  bloom_level : Option Int
  bloom_category : Option String
  marks : Option Int
  topic_tags : List String
deriving DecidableEq

/-- One persisted `ReviewQueue` row as constructed by `save_questions`. -/
structure ReviewQueueRow where
  question_id : Nat
  issue_type : String
  suggested_correction : SuggestedCorrection
  priority : Nat
  status : String
deriving DecidableEq

/-- The issue-type/priority decision of `save_questions`: `unit_id is
None` (identity, not truthiness) → `AMBIGUOUS_UNIT`/1, else confidence
`< 0.7` → `LOW_CONFIDENCE`/2, else `NEEDS_REVIEW`/3. -/
def routeIssue (unit_id : Option Int) (conf : ℚ) : String × Nat :=
  match unit_id with
  | none => ("AMBIGUOUS_UNIT", 1)
  | some _ => if conf < 7 / 10 then ("LOW_CONFIDENCE", 2) else ("NEEDS_REVIEW", 3)

/-- One iteration of the `save_questions` loop: skip (`continue`) when a
required key is missing or an enum conversion raises; otherwise build the
`Question` row (flushing assigns it `qid`) and its `ReviewQueue` entry. -/
def saveQuestionStep (pid : Int) (cc : String) (qid : Nat) (q : QuestionData) :
    Option (QuestionRow × ReviewQueueRow) :=
  match q.question_number, q.question_text with
  | some qn, some qt =>
    match pyBloomLevel q.bloom_taxonomy_level, pyBloomCategory q.bloom_category with
    | some lvl, some cat =>
      some
        ({ question_id := qid
           paper_id := pid
           course_code := cc
           unit_id := q.unit_id
           question_number := qn
           question_text := qt
           marks := q.marks
           bloom_level := lvl
           bloom_category := cat
           bloom_confidence := none
           difficulty_level := none
           classification_confidence := q.classification_confidence
           is_canonical := q.is_canonical
           parent_question_id := q.parent_question_id
           similarity_score := q.similarity_score
           has_subparts := q.has_subparts
           has_mathematical_notation := q.has_mathematical_notation
           page_number := q.page_number
           topic_tags := if q.topic_tags.isEmpty then none else some q.topic_tags
           is_reviewed := false
           review_status := .pending },
         { question_id := qid
           issue_type := (routeIssue q.unit_id q.classification_confidence).1
           suggested_correction :=
             { unit_id := q.unit_id
               unit_name := q.unit_name
               bloom_level := q.bloom_taxonomy_level
               bloom_category := q.bloom_category
               marks := q.marks
               topic_tags := q.topic_tags }
           priority := (routeIssue q.unit_id q.classification_confidence).2
           status := "PENDING" })
    | _, _ => none
  | _, _ => none

/-- The rows, review entries and counters accumulated by the
`save_questions` loop before the final commit. -/
structure SaveOutcome where
  rows : List QuestionRow
  reviews : List ReviewQueueRow
  saved_count : Nat
  review_count : Nat
deriving DecidableEq

/-- The `save_questions` loop.  `qid` models the autoincrement id the
`db.flush()` of each successfully constructed row consumes. -/
def saveQuestionsLoop (pid : Int) (cc : String) :
    Nat → List QuestionData → SaveOutcome
  | _, [] => { rows := [], reviews := [], saved_count := 0, review_count := 0 }
  | qid, q :: qs =>
    match saveQuestionStep pid cc qid q with
    | some (row, review) =>
      { rows := row :: (saveQuestionsLoop pid cc (qid + 1) qs).rows
        reviews := review :: (saveQuestionsLoop pid cc (qid + 1) qs).reviews
        saved_count := (saveQuestionsLoop pid cc (qid + 1) qs).saved_count + 1
        review_count := (saveQuestionsLoop pid cc (qid + 1) qs).review_count + 1 }
    | none => saveQuestionsLoop pid cc qid qs

/-- The committed relational store the pipeline writes to. -/
structure Database where
  questions : List QuestionRow
  reviews : List ReviewQueueRow
deriving DecidableEq

/-- `save_questions` as a transaction.  An empty list returns before
touching the session.  Otherwise all accumulated rows commit together
(`db.commit()` at the end of the loop), or the commit fails and
`db.rollback()` discards every pending row — a failed flush inside the
loop leaves the session unable to commit, so it also lands in the
rollback case.  `commitOk` models the database's verdict.  On success the returned
count is the `review_count` written to `paper.questions_in_review`
(`none` when the early return skipped that write). -/
def saveQuestionsTx (pid : Int) (cc : String) (startId : Nat)
    (qs : List QuestionData) (db : Database) (commitOk : Bool) :
    Database × Except String (Option Nat) :=
  if qs.isEmpty then (db, .ok none)
  else if commitOk then
    ({ questions := db.questions ++ (saveQuestionsLoop pid cc startId qs).rows
       reviews := db.reviews ++ (saveQuestionsLoop pid cc startId qs).reviews },
     .ok (some (saveQuestionsLoop pid cc startId qs).review_count))
  else (db, .error "Error saving questions")

/-! ## The synchronous orchestrator (`api/admin.py`, `submit_metadata`) -/

/-- The `ProcessingStatus` enum of `models/question_paper.py`. -/
inductive ProcessingStatus where
  | uploaded | metadataPending | processing | completed | failed
deriving DecidableEq

/-- The paper-row fields the pipeline mutates.  `error_log` collects the
errors recorded for operators (`logger.error` and the surfaced
HTTP-failure detail). -/
structure PaperState where
  processing_status : ProcessingStatus
  processing_progress : ℚ
  total_questions_extracted : Nat
  questions_in_review : Nat
  error_log : List String
deriving DecidableEq

/-- The observable result of one `submit_metadata` processing run:
the final paper row, the committed store, and the `HTTPException` detail
when the run failed (`none` on success). -/
structure RunResult where
  paper : PaperState
  db : Database
  httpError : Option String
deriving DecidableEq

/-- The `except` handler of the processing block: status `FAILED`,
progress reset to 0, the error logged, and a 500 with the same detail
re-raised. -/
def failRun (paper : PaperState) (db : Database) (e : String) : RunResult :=
  { paper := { paper with
      processing_status := .failed
      processing_progress := 0
      error_log := paper.error_log ++
        ["Failed to process question paper: " ++ e] }
    db := db
    httpError := some ("Failed to process question paper: " ++ e) }

/-- The five-stage processing block of `submit_metadata` (the same stage
functions `process_question_paper` in `tasks/processing.py` sequences).
`conversion` is the outcome of `convert_file_for_llm`, `extractResp` the
extraction service call, `syllabus`/`classifyResp` the classification
inputs, `commitOk` the verdict of the `save_questions` transaction — the
only commit that writes Question/ReviewQueue rows; the status-only
commits on the paper row are modelled as succeeding.  Intermediate
progress checkpoints (10/30/50/70/90) are overwritten by the terminal
value and only the latter is part of the final state. -/
def runPaperPipeline (paper : PaperState) (pid : Int) (cc : String)
    (conversion : Except String Unit)
    (extractResp : Except String (Option Json))
    (syllabus : Option Syllabus)
    (classifyResp : Except String (Nat → Option LLMClassification))
    (startId : Nat) (db : Database) (commitOk : Bool) : RunResult :=
  match conversion with
  | .error e => failRun paper db e
  | .ok _ =>
    match extractionStage extractResp with
    | .error e => failRun paper db e
    | .ok questions =>
      match classifyQuestionsWithLLM syllabus classifyResp questions with
      | .error e => failRun paper db e
      | .ok classified =>
        match saveQuestionsTx pid cc startId
            ((detectDuplicates classified).map DedupedQuestion.toData) db commitOk with
        | (db2, .error e) => failRun paper db2 e
        | (db2, .ok reviewCount) =>
          { paper := { paper with
              processing_status := .completed
              processing_progress := 100
              total_questions_extracted := (detectDuplicates classified).length
              questions_in_review := reviewCount.getD paper.questions_in_review }
            db := db2
            httpError := none }

/-! ## Auxiliary predicates and concrete sample inputs -/

/-- A question dict `save_questions` persists rather than skips: both
required keys are present and neither Bloom enum conversion raises. -/
def persistable (q : QuestionData) : Bool :=
  q.question_number.isSome && q.question_text.isSome &&
    (pyBloomLevel q.bloom_taxonomy_level).isSome &&
    (pyBloomCategory q.bloom_category).isSome

/-- A validated extracted question whose Bloom fields survive the enum
constructors of `save_questions`. -/
def bloomValid (q : ExtractedQuestion) : Bool :=
  (pyBloomLevel q.bloom_taxonomy_level).isSome &&
    (pyBloomCategory q.bloom_category).isSome

/-- The decoded extraction response `{"questions": []}`: syntactically
valid, zero questions. -/
def emptyQuestionsJson : Json := .obj [("questions", .arr [])]

/-- A fresh paper row about to be processed. -/
def samplePaper : PaperState :=
  { processing_status := .metadataPending
    processing_progress := 0
    total_questions_extracted := 0
    questions_in_review := 0
    error_log := [] }

/-- An empty committed store. -/
def emptyDb : Database := { questions := [], reviews := [] }

/-- One persistable question dict with no unit assignment. -/
def sampleQD : QuestionData :=
  { question_number := some "1"
    question_text := some "Define a stack."
    marks := some 5
    bloom_taxonomy_level := some 1
    bloom_category := some "Remembering"
    unit_id := none
    unit_name := none
    topic_tags := []
    classification_confidence := 0
    is_canonical := true
    parent_question_id := none
    similarity_score := none
    has_subparts := false }

/-- A decoded extraction response with one question. -/
def oneQuestionJson : Json :=
  .obj [("questions", .arr [.obj [("question_number", .str "1"),
    ("question_text", .str "Define a stack.")]])]

/-- The validated question `oneQuestionJson` yields. -/
def sampleExtracted : ExtractedQuestion :=
  { question_number := "1"
    question_text := "Define a stack."
    marks := none
    bloom_taxonomy_level := none
    bloom_category := none
    has_diagram := false
    has_subparts := false }

/-- A one-unit syllabus. -/
def sampleSyllabus : Syllabus :=
  { course_code := "CS101"
    units := [{ unit_id := 1, unit_number := 1, unit_name := "U",
                topics := ["a"] }] }

/-! ## Helper lemmas -/

theorem bloomLevelOfInt_isSome {v : Int} (h1 : 1 ≤ v) (h6 : v ≤ 6) :
    (bloomLevelOfInt v).isSome := by
  interval_cases v <;> rfl

theorem parseBloomLevel_range {x : Option Json} {v : Int}
    (h : parseBloomLevel x = some v) : 1 ≤ v ∧ v ≤ 6 := by
  unfold parseBloomLevel at h
  repeat' split at h
  all_goals simp_all

theorem pyBloomLevel_parse (x : Option Json) :
    (pyBloomLevel (parseBloomLevel x)).isSome := by
  cases h : parseBloomLevel x with
  | none => rfl
  | some v =>
    obtain ⟨h1, h6⟩ := parseBloomLevel_range h
    have hv : ¬ v = 0 := by omega
    simp [pyBloomLevel, hv, Option.isSome_map]
    simpa using bloomLevelOfInt_isSome h1 h6

theorem bloomNameMap_valid {s c : String} (h : bloomNameMap s = some c) :
    (bloomCategoryOfString c).isSome := by
  unfold bloomNameMap at h
  split at h <;> simp_all <;> subst h <;> rfl

theorem levelName_valid {v : Int} {c : String} (h : levelName v = some c) :
    (bloomCategoryOfString c).isSome := by
  unfold levelName at h
  split at h <;> simp_all <;> subst h <;> rfl

theorem levelNameOfJson_valid {l : Json} {c : String}
    (h : levelNameOfJson l = some c) : (bloomCategoryOfString c).isSome := by
  unfold levelNameOfJson at h
  split at h
  · split at h
    · exact levelName_valid h
    · exact absurd h (by simp)
  · split at h
    · exact levelName_valid h
    · exact absurd h (by simp)
  · exact absurd h (by simp)

theorem bloomFallback_valid {lvl : Option Json} {s : String}
    (h : bloomFallback lvl = some s) : (bloomCategoryOfString s).isSome := by
  unfold bloomFallback at h
  split at h
  · split at h
    · exact levelNameOfJson_valid h
    · exact absurd h (by simp)
  · exact absurd h (by simp)

theorem parseBloomCategory_valid {cat lvl : Option Json} {s : String}
    (h : parseBloomCategory cat lvl = some s) :
    (bloomCategoryOfString s).isSome := by
  unfold parseBloomCategory at h
  split at h
  · split at h
    · split at h
      · rename_i hmap
        cases h
        exact bloomNameMap_valid hmap
      · exact bloomFallback_valid h
    · exact bloomFallback_valid h
  · exact bloomFallback_valid h

theorem pyBloomCategory_parse (cat lvl : Option Json) :
    (pyBloomCategory (parseBloomCategory cat lvl)).isSome := by
  cases h : parseBloomCategory cat lvl with
  | none => rfl
  | some s =>
    by_cases hs : s = ""
    · simp [pyBloomCategory, hs]
    · simp [pyBloomCategory, hs, Option.isSome_map]
      simpa using parseBloomCategory_valid h

theorem validateQuestion_bloomValid {j : Json} {q : ExtractedQuestion}
    (h : validateQuestion j = some q) : bloomValid q = true := by
  unfold validateQuestion at h
  repeat' split at h
  all_goals cases h
  simp [bloomValid, pyBloomLevel_parse, pyBloomCategory_parse]

theorem parseLLMResponse_ok_mem {decoded : Option Json}
    {qs : List ExtractedQuestion} (h : parseLLMResponse decoded = .ok qs) :
    ∀ q ∈ qs, ∃ j, validateQuestion j = some q := by
  unfold parseLLMResponse at h
  repeat' split at h
  all_goals cases h
  intro q hq
  obtain ⟨j, _, hj⟩ := List.mem_filterMap.mp hq
  exact ⟨j, hj⟩

theorem handleSubparts_bloomValid {qs : List ExtractedQuestion}
    (h : ∀ q ∈ qs, bloomValid q = true) :
    ∀ q ∈ handleSubparts qs, bloomValid q = true := by
  intro q hq
  simp only [handleSubparts, List.mem_map] at hq
  obtain ⟨q0, hq0, rfl⟩ := hq
  simpa [bloomValid] using h q0 hq0

theorem extractionStage_bloomValid {resp : Except String (Option Json)}
    {qs : List ExtractedQuestion} (h : extractionStage resp = .ok qs) :
    ∀ q ∈ qs, bloomValid q = true := by
  unfold extractionStage at h
  repeat' split at h
  all_goals cases h
  rename_i hparse
  exact handleSubparts_bloomValid
    (fun q hq => by
      obtain ⟨j, hj⟩ := parseLLMResponse_ok_mem hparse q hq
      exact validateQuestion_bloomValid hj)

theorem applyClassification_base (units : List SyllabusUnit)
    (c : Option LLMClassification) (q : ExtractedQuestion) :
    (applyClassification units c q).base = q := by
  unfold applyClassification
  repeat' split
  all_goals rfl

theorem applyClassificationsFrom_length (units : List SyllabusUnit)
    (clsMap : Nat → Option LLMClassification) :
    ∀ (qs : List ExtractedQuestion) (i : Nat),
      (applyClassificationsFrom units clsMap i qs).length = qs.length := by
  intro qs
  induction qs with
  | nil => intro i; rfl
  | cons q qs ih => intro i; simp [applyClassificationsFrom, ih]

theorem applyClassificationsFrom_get (units : List SyllabusUnit)
    (clsMap : Nat → Option LLMClassification) :
    ∀ (qs : List ExtractedQuestion) (i j : Nat),
      (applyClassificationsFrom units clsMap i qs)[j]? =
        qs[j]?.map (fun q => applyClassification units (clsMap (i + j)) q) := by
  intro qs
  induction qs with
  | nil => intro i j; rfl
  | cons q qs ih =>
    intro i j
    cases j with
    | zero => simp [applyClassificationsFrom]
    | succ j =>
      simp only [applyClassificationsFrom, List.getElem?_cons_succ, ih (i + 1) j]
      have : i + 1 + j = i + (j + 1) := by omega
      rw [this]

theorem classify_ok_length {syl : Option Syllabus}
    {res : Except String (Nat → Option LLMClassification)}
    {qs : List ExtractedQuestion} {out : List ClassifiedQuestion}
    (h : classifyQuestionsWithLLM syl res qs = .ok out) :
    out.length = qs.length := by
  unfold classifyQuestionsWithLLM at h
  repeat' split at h
  all_goals cases h
  all_goals simp [applyClassifications, applyClassificationsFrom_length]

theorem classify_ok_base {syl : Option Syllabus}
    {res : Except String (Nat → Option LLMClassification)}
    {qs : List ExtractedQuestion} {out : List ClassifiedQuestion}
    (h : classifyQuestionsWithLLM syl res qs = .ok out) :
    ∀ j : Nat, out[j]?.map ClassifiedQuestion.base = qs[j]? := by
  unfold classifyQuestionsWithLLM at h
  repeat' split at h
  all_goals cases h
  all_goals intro j
  · cases hq : qs[j]? <;> simp [List.getElem?_map, hq, unclassified]
  · cases hq : qs[j]? <;> simp [List.getElem?_map, hq, unclassified]
  · simp only [applyClassifications, applyClassificationsFrom_get]
    cases hq : qs[j]? <;> simp [hq, applyClassification_base]

theorem saveQuestionStep_eq (pid : Int) (cc : String) (qid : Nat)
    {q : QuestionData} (h : persistable q = true) :
    ∃ qn qt lvl cat,
      q.question_number = some qn ∧ q.question_text = some qt ∧
      pyBloomLevel q.bloom_taxonomy_level = some lvl ∧
      pyBloomCategory q.bloom_category = some cat ∧
      saveQuestionStep pid cc qid q = some
        ({ question_id := qid
           paper_id := pid
           course_code := cc
           unit_id := q.unit_id
           question_number := qn
           question_text := qt
           marks := q.marks
           bloom_level := lvl
           bloom_category := cat
           bloom_confidence := none
           difficulty_level := none
           classification_confidence := q.classification_confidence
           is_canonical := q.is_canonical
           parent_question_id := q.parent_question_id
           similarity_score := q.similarity_score
           has_subparts := q.has_subparts
           has_mathematical_notation := q.has_mathematical_notation
           page_number := q.page_number
           topic_tags := if q.topic_tags.isEmpty then none else some q.topic_tags
           is_reviewed := false
           review_status := .pending },
         { question_id := qid
           issue_type := (routeIssue q.unit_id q.classification_confidence).1
           suggested_correction :=
             { unit_id := q.unit_id
               unit_name := q.unit_name
               bloom_level := q.bloom_taxonomy_level
               bloom_category := q.bloom_category
               marks := q.marks
               topic_tags := q.topic_tags }
           priority := (routeIssue q.unit_id q.classification_confidence).2
           status := "PENDING" }) := by
  unfold persistable at h
  simp only [Bool.and_eq_true] at h
  obtain ⟨⟨⟨h1, h2⟩, h3⟩, h4⟩ := h
  obtain ⟨qn, hqn⟩ := Option.isSome_iff_exists.mp h1
  obtain ⟨qt, hqt⟩ := Option.isSome_iff_exists.mp h2
  obtain ⟨lvl, hlvl⟩ := Option.isSome_iff_exists.mp h3
  obtain ⟨cat, hcat⟩ := Option.isSome_iff_exists.mp h4
  exact ⟨qn, qt, lvl, cat, hqn, hqt, hlvl, hcat,
    by simp [saveQuestionStep, hqn, hqt, hlvl, hcat]⟩

theorem saveQuestionStep_spec {pid : Int} {cc : String} {qid : Nat}
    {q : QuestionData} {row : QuestionRow} {review : ReviewQueueRow}
    (hp : persistable q = true)
    (h : saveQuestionStep pid cc qid q = some (row, review)) :
    row.question_id = qid ∧ row.paper_id = pid ∧ row.course_code = cc ∧
    row.unit_id = q.unit_id ∧ row.is_reviewed = false ∧
    row.review_status = ReviewStatus.pending ∧
    row.is_canonical = q.is_canonical ∧
    row.parent_question_id = q.parent_question_id ∧
    row.classification_confidence = q.classification_confidence ∧
    row.topic_tags = (if q.topic_tags.isEmpty then none else some q.topic_tags) ∧
    review.question_id = qid ∧ review.status = "PENDING" ∧
    review.issue_type = (routeIssue q.unit_id q.classification_confidence).1 ∧
    review.priority = (routeIssue q.unit_id q.classification_confidence).2 := by
  obtain ⟨qn, qt, lvl, cat, _, _, _, _, heq⟩ := saveQuestionStep_eq pid cc qid hp
  rw [heq] at h
  cases h
  simp

theorem saveQuestionsLoop_spec (pid : Int) (cc : String) :
    ∀ (qs : List QuestionData) (qid : Nat), (∀ q ∈ qs, persistable q = true) →
      (saveQuestionsLoop pid cc qid qs).rows.length = qs.length ∧
      (saveQuestionsLoop pid cc qid qs).reviews.length = qs.length ∧
      ∀ (i : Nat) (q : QuestionData), qs[i]? = some q →
        ∃ row review, saveQuestionStep pid cc (qid + i) q = some (row, review) ∧
          (saveQuestionsLoop pid cc qid qs).rows[i]? = some row ∧
          (saveQuestionsLoop pid cc qid qs).reviews[i]? = some review := by
  intro qs
  induction qs with
  | nil =>
    intro qid _
    refine ⟨rfl, rfl, ?_⟩
    intro i q hq
    simp at hq
  | cons q qs ih =>
    intro qid hall
    obtain ⟨qn, qt, lvl, cat, _, _, _, _, hstep⟩ :=
      saveQuestionStep_eq pid cc qid (hall q (List.mem_cons_self q qs))
    have hrest := ih (qid + 1) (fun p hp => hall p (List.mem_cons_of_mem q hp))
    simp only [saveQuestionsLoop, hstep]
    refine ⟨by simp [hrest.1], by simp [hrest.2.1], ?_⟩
    intro i p hp
    cases i with
    | zero =>
      simp only [List.getElem?_cons_zero, Option.some_inj] at hp
      subst hp
      exact ⟨_, _, by simpa using hstep, by simp, by simp⟩
    | succ i =>
      simp only [List.getElem?_cons_succ] at hp ⊢
      obtain ⟨r2, v2, hs2, hr2, hv2⟩ := hrest.2.2 i p hp
      have harith : qid + (i + 1) = qid + 1 + i := by omega
      rw [harith]
      exact ⟨r2, v2, hs2, hr2, hv2⟩

theorem saveQuestionsTx_error_db {pid : Int} {cc : String} {startId : Nat}
    {qs : List QuestionData} {db : Database} {commitOk : Bool}
    {db2 : Database} {e : String}
    (h : saveQuestionsTx pid cc startId qs db commitOk = (db2, .error e)) :
    db2 = db := by
  unfold saveQuestionsTx at h
  repeat' split at h
  all_goals cases h
  rfl

theorem runPaperPipeline_cases (paper : PaperState) (pid : Int) (cc : String)
    (conversion : Except String Unit) (extractResp : Except String (Option Json))
    (syllabus : Option Syllabus)
    (classifyResp : Except String (Nat → Option LLMClassification))
    (startId : Nat) (db : Database) (commitOk : Bool) :
    (∃ e, runPaperPipeline paper pid cc conversion extractResp syllabus
        classifyResp startId db commitOk = failRun paper db e) ∨
    (∃ questions classified db2 rc,
      extractionStage extractResp = .ok questions ∧
      classifyQuestionsWithLLM syllabus classifyResp questions = .ok classified ∧
      saveQuestionsTx pid cc startId
        ((detectDuplicates classified).map DedupedQuestion.toData) db commitOk
        = (db2, .ok rc) ∧
      runPaperPipeline paper pid cc conversion extractResp syllabus
        classifyResp startId db commitOk =
        { paper := { paper with
            processing_status := .completed
            processing_progress := 100
            total_questions_extracted := (detectDuplicates classified).length
            questions_in_review := rc.getD paper.questions_in_review }
          db := db2
          httpError := none }) := by
  unfold runPaperPipeline
  split
  next e => exact Or.inl ⟨e, rfl⟩
  next u =>
    split
    next e heqE => exact Or.inl ⟨e, rfl⟩
    next questions heqE =>
      split
      next e heqC => exact Or.inl ⟨e, rfl⟩
      next classified heqC =>
        split
        next db2 e heqS =>
          have hdb := saveQuestionsTx_error_db heqS
          subst hdb
          exact Or.inl ⟨e, rfl⟩
        next db2 rc heqS =>
          exact Or.inr ⟨questions, classified, db2, rc, heqE, heqC, heqS, rfl⟩

theorem routeIssue_low {uid : Int} {conf : ℚ} (h : conf < 7 / 10) :
    routeIssue (some uid) conf = ("LOW_CONFIDENCE", 2) := by
  simp [routeIssue, h]

theorem routeIssue_needs {uid : Int} {conf : ℚ} (h : ¬ conf < 7 / 10) :
    routeIssue (some uid) conf = ("NEEDS_REVIEW", 3) := by
  simp [routeIssue, h]

theorem bestSim_cons_isSome (x : ℚ) (xs : List ℚ) :
    (bestSim (x :: xs)).isSome := by
  unfold bestSim
  cases bestSim xs with
  | none => rfl
  | some p =>
    obtain ⟨j, m⟩ := p
    dsimp only
    split <;> rfl

theorem bestSim_spec : ∀ (sims : List ℚ), sims ≠ [] →
    ∃ idx m, bestSim sims = some (idx, m) ∧ idx < sims.length ∧
      sims[idx]? = some m ∧ ∀ s ∈ sims, s ≤ m := by
  intro sims
  induction sims with
  | nil => intro h; exact absurd rfl h
  | cons x xs ih =>
    intro _
    cases hbs : bestSim xs with
    | none =>
      have hxs : xs = [] := by
        cases xs with
        | nil => rfl
        | cons y ys =>
          have := bestSim_cons_isSome y ys
          rw [hbs] at this
          simp at this
      subst hxs
      exact ⟨0, x, rfl, by simp, by simp, by simp⟩
    | some p =>
      obtain ⟨j, m⟩ := p
      have hxs : xs ≠ [] := by
        intro h
        subst h
        simp [bestSim] at hbs
      obtain ⟨j0, m0, hbs0, hlt, hget, hmax⟩ := ih hxs
      rw [hbs0] at hbs
      cases hbs
      by_cases hgt : m > x
      · refine ⟨j + 1, m, ?_, by simpa using hlt, by simpa using hget, ?_⟩
        · simp only [bestSim, hbs0]
          simp [hgt]
        · intro s hs
          rcases List.mem_cons.mp hs with rfl | hs
          · linarith
          · exact hmax s hs
      · refine ⟨0, x, ?_, by simp, by simp, ?_⟩
        · simp only [bestSim, hbs0]
          simp [hgt]
        · intro s hs
          rcases List.mem_cons.mp hs with rfl | hs
          · exact le_refl s
          · exact le_trans (hmax s hs) (not_lt.mp hgt)

theorem detectDuplicates_get (qs : List ClassifiedQuestion) (j : Nat) :
    (detectDuplicates qs)[j]? = qs[j]?.map (fun c =>
      { cls := c, is_canonical := true, parent_question_id := none,
        similarity_score := none }) := by
  simp [detectDuplicates, List.getElem?_map]

theorem toData_persistable {d : DedupedQuestion}
    (h : bloomValid d.cls.base = true) : persistable d.toData = true := by
  unfold bloomValid at h
  unfold persistable DedupedQuestion.toData
  simp_all

theorem pipelineData_persistable {resp : Except String (Option Json)}
    {qs : List ExtractedQuestion} (hqs : extractionStage resp = .ok qs)
    {syl : Option Syllabus} {res : Except String (Nat → Option LLMClassification)}
    {out : List ClassifiedQuestion}
    (hout : classifyQuestionsWithLLM syl res qs = .ok out) :
    ∀ d ∈ (detectDuplicates out).map DedupedQuestion.toData, persistable d = true := by
  intro d hd
  obtain ⟨dd, hdd, rfl⟩ := List.mem_map.mp hd
  obtain ⟨c, hc, rfl⟩ := List.mem_map.mp hdd
  apply toData_persistable
  obtain ⟨j, hj⟩ := List.getElem?_of_mem hc
  have hbase := classify_ok_base hout j
  rw [hj] at hbase
  simp only [Option.map_some'] at hbase
  have hmem : c.base ∈ qs := List.getElem?_mem hbase.symm
  exact extractionStage_bloomValid hqs c.base hmem

theorem saveQuestionStep_some_spec {pid : Int} {cc : String} {qid : Nat}
    {q : QuestionData} {row : QuestionRow} {review : ReviewQueueRow}
    (h : saveQuestionStep pid cc qid q = some (row, review)) :
    row.paper_id = pid ∧ row.is_canonical = q.is_canonical ∧
    row.parent_question_id = q.parent_question_id ∧ row.is_reviewed = false := by
  cases hqn : q.question_number with
  | none => simp [saveQuestionStep, hqn] at h
  | some qn =>
    cases hqt : q.question_text with
    | none => simp [saveQuestionStep, hqn, hqt] at h
    | some qt =>
      cases hlvl : pyBloomLevel q.bloom_taxonomy_level with
      | none => simp [saveQuestionStep, hqn, hqt, hlvl] at h
      | some lvl =>
        cases hcat : pyBloomCategory q.bloom_category with
        | none => simp [saveQuestionStep, hqn, hqt, hlvl, hcat] at h
        | some cat =>
          simp only [saveQuestionStep, hqn, hqt, hlvl, hcat] at h
          cases h
          exact ⟨rfl, rfl, rfl, rfl⟩

theorem saveQuestionsLoop_rows_mem {pid : Int} {cc : String} :
    ∀ {qs : List QuestionData} {qid : Nat} {row : QuestionRow},
      row ∈ (saveQuestionsLoop pid cc qid qs).rows →
      ∃ q ∈ qs, ∃ qid2 review, saveQuestionStep pid cc qid2 q = some (row, review) := by
  intro qs
  induction qs with
  | nil => intro qid row h; simp [saveQuestionsLoop] at h
  | cons q qs ih =>
    intro qid row h
    unfold saveQuestionsLoop at h
    cases hstep : saveQuestionStep pid cc qid q with
    | none =>
      rw [hstep] at h
      obtain ⟨p, hp, hrest⟩ := ih h
      exact ⟨p, List.mem_cons_of_mem q hp, hrest⟩
    | some pr =>
      obtain ⟨r, v⟩ := pr
      rw [hstep] at h
      simp only [List.mem_cons] at h
      rcases h with rfl | h
      · exact ⟨q, List.mem_cons_self q qs, qid, v, hstep⟩
      · obtain ⟨p, hp, hrest⟩ := ih h
        exact ⟨p, List.mem_cons_of_mem q hp, hrest⟩

theorem applyClassificationsFrom_mem {units : List SyllabusUnit}
    {clsMap : Nat → Option LLMClassification} :
    ∀ {qs : List ExtractedQuestion} {i : Nat} {c : ClassifiedQuestion},
      c ∈ applyClassificationsFrom units clsMap i qs →
      ∃ cls q0, c = applyClassification units cls q0 := by
  intro qs
  induction qs with
  | nil => intro i c h; simp [applyClassificationsFrom] at h
  | cons q qs ih =>
    intro i c h
    rcases List.mem_cons.mp h with rfl | h
    · exact ⟨clsMap i, q, rfl⟩
    · exact ih h

theorem applyClassification_shape (units : List SyllabusUnit)
    (cls : Option LLMClassification) (q : ExtractedQuestion) :
    applyClassification units cls q = unclassified q ∨
    ∃ uid u, (cls.getD emptyClassification).unit_id = some uid ∧
      unitLookup units uid = some u ∧
      applyClassification units cls q =
        { base := q
          unit_id := some uid
          unit_name := some u.unit_name
          topic_tags := (cls.getD emptyClassification).topic_tags.filter
            (fun t => u.topics.contains t)
          classification_confidence :=
            if (cls.getD emptyClassification).confidence ≠ 0 then
              (cls.getD emptyClassification).confidence
            else 0 } := by
  unfold applyClassification
  split
  · exact Or.inl rfl
  next uid hu =>
    split
    · exact Or.inl rfl
    next h0 =>
      split
      · exact Or.inl rfl
      next u hl => exact Or.inr ⟨uid, u, hu, hl, rfl⟩

/-! ## The claims -/

/-- C3: for every non-empty syllabus unit list (with one similarity score
per unit), `classify_unit` assigns the arg-max-similarity unit exactly when
the best cosine similarity is strictly greater than 0.3; when the best
similarity is at most 0.3 (including exactly 0.3) it returns
`unit_id = none` together with that raw similarity as the confidence. -/
theorem c3_classify_unit_threshold (units : List CSUnit) (sims : List ℚ)
    (hne : sims ≠ []) (hlen : sims.length = units.length) :
    ∃ idx m u,
      bestSim sims = some (idx, m) ∧ sims[idx]? = some m ∧ (∀ s ∈ sims, s ≤ m) ∧
      units[idx]? = some u ∧
      ((classify_unit (some units) sims).1.isSome ↔ 3 / 10 < m) ∧
      (3 / 10 < m → classify_unit (some units) sims = (some u.unit_id, m)) ∧
      (m ≤ 3 / 10 → classify_unit (some units) sims = (none, m)) := by
  obtain ⟨idx, m, hbs, hlt, hget, hmax⟩ := bestSim_spec sims hne
  have hlt2 : idx < units.length := hlen ▸ hlt
  refine ⟨idx, m, units[idx], hbs, hget, hmax, List.getElem?_eq_getElem hlt2,
    ?_, ?_, ?_⟩
  · unfold classify_unit
    rw [hbs]
    by_cases hgt : 3 / 10 < m
    · simp [hgt, List.getElem?_eq_getElem hlt2]
    · simp [hgt]
  · intro hgt
    unfold classify_unit
    rw [hbs]
    simp [hgt, List.getElem?_eq_getElem hlt2]
  · intro hle
    unfold classify_unit
    rw [hbs]
    simp [not_lt.mpr hle]

/-- Witness for C3: one unit, similarity 2/5 (above the cutoff). -/
theorem c3_classify_unit_threshold_witness :
    ∃ idx m u,
      bestSim [(2 : ℚ) / 5] = some (idx, m) ∧
      [(2 : ℚ) / 5][idx]? = some m ∧ (∀ s ∈ [(2 : ℚ) / 5], s ≤ m) ∧
      [({ unit_id := 7, name := "Unit", topics := "topics" } : CSUnit)][idx]?
        = some u ∧
      ((classify_unit
          (some [{ unit_id := 7, name := "Unit", topics := "topics" }])
          [(2 : ℚ) / 5]).1.isSome ↔ 3 / 10 < m) ∧
      (3 / 10 < m →
        classify_unit (some [{ unit_id := 7, name := "Unit", topics := "topics" }])
          [(2 : ℚ) / 5] = (some u.unit_id, m)) ∧
      (m ≤ 3 / 10 →
        classify_unit (some [{ unit_id := 7, name := "Unit", topics := "topics" }])
          [(2 : ℚ) / 5] = (none, m)) :=
  c3_classify_unit_threshold [{ unit_id := 7, name := "Unit", topics := "topics" }]
    [(2 : ℚ) / 5] (by simp) (by simp)

/-- C8: the simplified duplicate-resolution policy marks every question of
its input canonical, with `parent_question_id = null` and
`similarity_score = null`; consequently every Question row persisted from
its output is canonical with a null parent reference. -/
theorem c8_simplified_dedup_all_canonical (qs : List ClassifiedQuestion)
    (pid : Int) (cc : String) (startId : Nat) :
    (∀ d ∈ detectDuplicates qs,
      d.is_canonical = true ∧ d.parent_question_id = none ∧
      d.similarity_score = none) ∧
    (∀ row ∈ (saveQuestionsLoop pid cc startId
        ((detectDuplicates qs).map DedupedQuestion.toData)).rows,
      row.is_canonical = true ∧ row.parent_question_id = none) := by
  constructor
  · intro d hd
    obtain ⟨c, _, rfl⟩ := List.mem_map.mp hd
    exact ⟨rfl, rfl, rfl⟩
  · intro row hrow
    obtain ⟨q, hq, qid2, review, hstep⟩ := saveQuestionsLoop_rows_mem hrow
    obtain ⟨_, hcanon, hparent, _⟩ := saveQuestionStep_some_spec hstep
    obtain ⟨dd, hdd, rfl⟩ := List.mem_map.mp hq
    obtain ⟨c, _, rfl⟩ := List.mem_map.mp hdd
    exact ⟨hcanon, hparent⟩

/-- C9: in the LLM classification variant, every topic tag attached to a
question that was assigned a unit is an exact string from that unit's topic
list (any tag outside the list was discarded by the filter). -/
theorem c9_topic_tags_from_unit (syl : Syllabus)
    (res : Except String (Nat → Option LLMClassification))
    (qs : List ExtractedQuestion) (out : List ClassifiedQuestion)
    (h : classifyQuestionsWithLLM (some syl) res qs = .ok out) :
    ∀ c ∈ out, ∀ uid, c.unit_id = some uid →
      ∃ u, unitLookup syl.units uid = some u ∧
        ∀ t ∈ c.topic_tags, t ∈ u.topics := by
  intro c hc uid huid
  simp only [classifyQuestionsWithLLM] at h
  split at h
  · cases h
    obtain ⟨q0, _, rfl⟩ := List.mem_map.mp hc
    simp [unclassified] at huid
  · split at h
    · cases h
    · cases h
      obtain ⟨cls, q0, rfl⟩ := applyClassificationsFrom_mem hc
      rcases applyClassification_shape syl.units cls q0 with hshape |
        ⟨uid0, u, _, hl, hshape⟩
      · rw [hshape] at huid
        simp [unclassified] at huid
      · rw [hshape] at huid
        obtain rfl : uid0 = uid := by simpa using huid
        refine ⟨u, hl, ?_⟩
        rw [hshape]
        intro t ht
        simp only [List.mem_filter] at ht
        exact List.mem_of_elem_eq_true ht.2

/-- Witness for C9: in a one-question batch whose LLM entry returns unit 1
with tags `["a", "z"]` against topics `["a", "b"]`, the stored tags lie in
the unit's topic list. -/
theorem c9_topic_tags_from_unit_witness :
    ∃ u, unitLookup
        [{ unit_id := 1, unit_number := 1, unit_name := "U",
           topics := ["a", "b"] }] 1 = some u ∧
      ∀ t ∈ (applyClassification
          [{ unit_id := 1, unit_number := 1, unit_name := "U",
             topics := ["a", "b"] }]
          (some { unit_id := some 1, topic_tags := ["a", "z"],
                  confidence := 9 / 10 })
          { question_number := "1", question_text := "t", marks := none,
            bloom_taxonomy_level := none, bloom_category := none,
            has_diagram := false, has_subparts := false }).topic_tags,
        t ∈ u.topics :=
  c9_topic_tags_from_unit
    { course_code := "CS",
      units := [{ unit_id := 1, unit_number := 1, unit_name := "U",
                  topics := ["a", "b"] }] }
    (.ok (fun _ => some { unit_id := some 1, topic_tags := ["a", "z"],
                          confidence := 9 / 10 }))
    [{ question_number := "1", question_text := "t", marks := none,
       bloom_taxonomy_level := none, bloom_category := none,
       has_diagram := false, has_subparts := false }]
    _ rfl
    (applyClassification
      [{ unit_id := 1, unit_number := 1, unit_name := "U",
         topics := ["a", "b"] }]
      (some { unit_id := some 1, topic_tags := ["a", "z"],
              confidence := 9 / 10 })
      { question_number := "1", question_text := "t", marks := none,
        bloom_taxonomy_level := none, bloom_category := none,
        has_diagram := false, has_subparts := false })
    (List.mem_singleton.mpr rfl) 1 rfl

/-- C10: a question whose LLM-returned unit id is absent (or null) or does
not match any unit id of the course's syllabus is forced to
`unit_id = none`, an empty topic-tag list and confidence 0.0, whatever
confidence the LLM reported. -/
theorem c10_unmatched_unit_forced_null (units : List SyllabusUnit)
    (cls : Option LLMClassification) (q : ExtractedQuestion)
    (h : (cls.getD emptyClassification).unit_id = none ∨
      ∀ uid, (cls.getD emptyClassification).unit_id = some uid →
        unitLookup units uid = none) :
    (applyClassification units cls q).unit_id = none ∧
    (applyClassification units cls q).topic_tags = [] ∧
    (applyClassification units cls q).classification_confidence = 0 := by
  unfold applyClassification
  cases hu : (cls.getD emptyClassification).unit_id with
  | none => exact ⟨rfl, rfl, rfl⟩
  | some uid =>
    rcases h with h | h
    · rw [h] at hu; cases hu
    · have hl := h uid hu
      by_cases h0 : uid = 0
      · simp [h0, unclassified]
      · simp [h0, hl, unclassified]

/-- Witness for C10: the LLM returns unit id 5 with confidence 9/10, but
the syllabus only has unit 1. -/
theorem c10_unmatched_unit_forced_null_witness :
    (applyClassification
      [{ unit_id := 1, unit_number := 1, unit_name := "U", topics := ["a"] }]
      (some { unit_id := some 5, topic_tags := ["a"], confidence := 9 / 10 })
      { question_number := "1", question_text := "t", marks := none,
        bloom_taxonomy_level := none, bloom_category := none,
        has_diagram := false, has_subparts := false }).unit_id = none ∧
    (applyClassification
      [{ unit_id := 1, unit_number := 1, unit_name := "U", topics := ["a"] }]
      (some { unit_id := some 5, topic_tags := ["a"], confidence := 9 / 10 })
      { question_number := "1", question_text := "t", marks := none,
        bloom_taxonomy_level := none, bloom_category := none,
        has_diagram := false, has_subparts := false }).topic_tags = [] ∧
    (applyClassification
      [{ unit_id := 1, unit_number := 1, unit_name := "U", topics := ["a"] }]
      (some { unit_id := some 5, topic_tags := ["a"], confidence := 9 / 10 })
      { question_number := "1", question_text := "t", marks := none,
        bloom_taxonomy_level := none, bloom_category := none,
        has_diagram := false, has_subparts := false }).classification_confidence
      = 0 :=
  c10_unmatched_unit_forced_null
    [{ unit_id := 1, unit_number := 1, unit_name := "U", topics := ["a"] }]
    (some { unit_id := some 5, topic_tags := ["a"], confidence := 9 / 10 })
    { question_number := "1", question_text := "t", marks := none,
      bloom_taxonomy_level := none, bloom_category := none,
      has_diagram := false, has_subparts := false }
    (Or.inr (fun uid huid => by cases huid; rfl))

/-- C2: for every persistable question dict handed to `save_questions`,
exactly one Question row and exactly one ReviewQueueEntry are created (one
of each per list position), the entry's issue type and priority follow the
order: `unit_id is None` → `AMBIGUOUS_UNIT` priority 1, else confidence
< 0.7 → `LOW_CONFIDENCE` priority 2, else `NEEDS_REVIEW` priority 3; and
every persisted question starts with `is_reviewed = false`. -/
theorem c2_review_routing (pid : Int) (cc : String) (startId : Nat)
    (qs : List QuestionData) (hall : ∀ q ∈ qs, persistable q = true) :
    (saveQuestionsLoop pid cc startId qs).rows.length = qs.length ∧
    (saveQuestionsLoop pid cc startId qs).reviews.length = qs.length ∧
    ∀ (i : Nat) (q : QuestionData), qs[i]? = some q →
      ∃ row review,
        (saveQuestionsLoop pid cc startId qs).rows[i]? = some row ∧
        (saveQuestionsLoop pid cc startId qs).reviews[i]? = some review ∧
        review.question_id = row.question_id ∧
        row.is_reviewed = false ∧ review.status = "PENDING" ∧
        (q.unit_id = none →
          review.issue_type = "AMBIGUOUS_UNIT" ∧ review.priority = 1) ∧
        (q.unit_id ≠ none → q.classification_confidence < 7 / 10 →
          review.issue_type = "LOW_CONFIDENCE" ∧ review.priority = 2) ∧
        (q.unit_id ≠ none → ¬ q.classification_confidence < 7 / 10 →
          review.issue_type = "NEEDS_REVIEW" ∧ review.priority = 3) := by
  obtain ⟨hlen1, hlen2, hpt⟩ := saveQuestionsLoop_spec pid cc qs startId hall
  refine ⟨hlen1, hlen2, ?_⟩
  intro i q hq
  obtain ⟨row, review, hstep, hrow, hrev⟩ := hpt i q hq
  have hp : persistable q = true := hall q (List.getElem?_mem hq)
  obtain ⟨hqid, _, _, _, hirev, _, _, _, _, _, hvqid, hvst, hvis, hvpr⟩ :=
    saveQuestionStep_spec hp hstep
  refine ⟨row, review, hrow, hrev, by rw [hvqid, hqid], hirev, hvst, ?_, ?_, ?_⟩
  · intro hnone
    constructor
    · rw [hvis, hnone]; rfl
    · rw [hvpr, hnone]; rfl
  · intro hsome hlow
    obtain ⟨uid, hu⟩ := Option.ne_none_iff_exists'.mp hsome
    constructor
    · rw [hvis, hu, routeIssue_low hlow]
    · rw [hvpr, hu, routeIssue_low hlow]
  · intro hsome hhigh
    obtain ⟨uid, hu⟩ := Option.ne_none_iff_exists'.mp hsome
    constructor
    · rw [hvis, hu, routeIssue_needs hhigh]
    · rw [hvpr, hu, routeIssue_needs hhigh]

/-- Witness for C2: a single unit-less question. -/
theorem c2_review_routing_witness :
    (saveQuestionsLoop 1 "CS101" 1 [sampleQD]).rows.length = [sampleQD].length ∧
    (saveQuestionsLoop 1 "CS101" 1 [sampleQD]).reviews.length = [sampleQD].length ∧
    ∀ (i : Nat) (q : QuestionData), [sampleQD][i]? = some q →
      ∃ row review,
        (saveQuestionsLoop 1 "CS101" 1 [sampleQD]).rows[i]? = some row ∧
        (saveQuestionsLoop 1 "CS101" 1 [sampleQD]).reviews[i]? = some review ∧
        review.question_id = row.question_id ∧
        row.is_reviewed = false ∧ review.status = "PENDING" ∧
        (q.unit_id = none →
          review.issue_type = "AMBIGUOUS_UNIT" ∧ review.priority = 1) ∧
        (q.unit_id ≠ none → q.classification_confidence < 7 / 10 →
          review.issue_type = "LOW_CONFIDENCE" ∧ review.priority = 2) ∧
        (q.unit_id ≠ none → ¬ q.classification_confidence < 7 / 10 →
          review.issue_type = "NEEDS_REVIEW" ∧ review.priority = 3) :=
  c2_review_routing 1 "CS101" 1 [sampleQD]
    (by intro q hq; simp only [List.mem_singleton] at hq; subst hq; decide)

/-- C5: whenever a pipeline run fails (the run surfaces an HTTP error
instead of completing), the paper's status becomes FAILED, its progress is
reset to 0, and the triggering error is recorded for operator
visibility. -/
theorem c5_failure_resets_paper (paper : PaperState) (pid : Int) (cc : String)
    (conversion : Except String Unit) (extractResp : Except String (Option Json))
    (syllabus : Option Syllabus)
    (classifyResp : Except String (Nat → Option LLMClassification))
    (startId : Nat) (db : Database) (commitOk : Bool) (e : String)
    (h : (runPaperPipeline paper pid cc conversion extractResp syllabus
        classifyResp startId db commitOk).httpError = some e) :
    (runPaperPipeline paper pid cc conversion extractResp syllabus
      classifyResp startId db commitOk).paper.processing_status = .failed ∧
    (runPaperPipeline paper pid cc conversion extractResp syllabus
      classifyResp startId db commitOk).paper.processing_progress = 0 ∧
    (runPaperPipeline paper pid cc conversion extractResp syllabus
      classifyResp startId db commitOk).paper.error_log
      = paper.error_log ++ [e] := by
  rcases runPaperPipeline_cases paper pid cc conversion extractResp syllabus
      classifyResp startId db commitOk with ⟨e2, heq⟩ |
      ⟨_, _, _, _, _, _, _, heq⟩
  · rw [heq] at h ⊢
    simp only [failRun] at h
    obtain rfl : ("Failed to process question paper: " ++ e2) = e := by
      simpa using h
    exact ⟨rfl, rfl, rfl⟩
  · rw [heq] at h
    simp at h

/-- Witness for C5: a run whose conversion stage fails. -/
theorem c5_failure_resets_paper_witness :
    (runPaperPipeline samplePaper 1 "CS101" (.error "corrupt file") (.ok none)
      none (.ok (fun _ => none)) 1 emptyDb true).paper.processing_status
      = .failed ∧
    (runPaperPipeline samplePaper 1 "CS101" (.error "corrupt file") (.ok none)
      none (.ok (fun _ => none)) 1 emptyDb true).paper.processing_progress = 0 ∧
    (runPaperPipeline samplePaper 1 "CS101" (.error "corrupt file") (.ok none)
      none (.ok (fun _ => none)) 1 emptyDb true).paper.error_log
      = samplePaper.error_log
        ++ ["Failed to process question paper: corrupt file"] :=
  c5_failure_resets_paper samplePaper 1 "CS101" (.error "corrupt file")
    (.ok none) none (.ok (fun _ => none)) 1 emptyDb true
    "Failed to process question paper: corrupt file" rfl

/-- C6: persistence of one paper is atomic — `save_questions` either
commits every accumulated Question row and ReviewQueue entry together, or
fails and leaves the committed store exactly as it was (a failed run
commits no Question or ReviewQueueEntry rows). -/
theorem c6_save_transaction_atomic (pid : Int) (cc : String) (startId : Nat)
    (qs : List QuestionData) (db : Database) (commitOk : Bool) :
    (∃ e, saveQuestionsTx pid cc startId qs db commitOk = (db, .error e)) ∨
    (∃ rc, saveQuestionsTx pid cc startId qs db commitOk =
      ({ questions := db.questions ++ (saveQuestionsLoop pid cc startId qs).rows
         reviews := db.reviews ++ (saveQuestionsLoop pid cc startId qs).reviews },
       .ok rc)) := by
  unfold saveQuestionsTx
  by_cases hq : qs.isEmpty
  · rw [if_pos hq]
    refine Or.inr ⟨none, ?_⟩
    obtain rfl : qs = [] := List.isEmpty_iff.mp hq
    cases db
    simp [saveQuestionsLoop]
  · rw [if_neg hq]
    cases commitOk
    · exact Or.inl ⟨_, rfl⟩
    · exact Or.inr ⟨_, rfl⟩

theorem runPaperPipeline_extraction_error (paper : PaperState) (pid : Int)
    (cc : String) (extractResp : Except String (Option Json))
    (syllabus : Option Syllabus)
    (classifyResp : Except String (Nat → Option LLMClassification))
    (startId : Nat) (db : Database) (commitOk : Bool) {e : String}
    (h : extractionStage extractResp = .error e) :
    runPaperPipeline paper pid cc (.ok ()) extractResp syllabus classifyResp
      startId db commitOk = failRun paper db e := by
  unfold runPaperPipeline
  rw [h]

theorem runPaperPipeline_empty_completes (paper : PaperState) (pid : Int)
    (cc : String) (syllabus : Option Syllabus)
    (clsMap : Nat → Option LLMClassification)
    (startId : Nat) (db : Database) (commitOk : Bool) :
    runPaperPipeline paper pid cc (.ok ()) (.ok (some emptyQuestionsJson))
      syllabus (.ok clsMap) startId db commitOk =
      { paper := { paper with
          processing_status := .completed
          processing_progress := 100
          total_questions_extracted := 0
          questions_in_review := paper.questions_in_review }
        db := db
        httpError := none } := by
  cases syllabus with
  | none => rfl
  | some syl =>
    obtain ⟨ccode, units⟩ := syl
    cases units with
    | nil => rfl
    | cons u us => rfl

/-- C7 counterexample: an extraction response decoding to
`{"questions": []}` — an "empty result" — is parsed successfully into an
empty question list, and the whole document completes with
`total_questions_extracted = 0` instead of failing. -/
theorem c7_empty_extraction_succeeds :
    parseLLMResponse (some emptyQuestionsJson) = .ok [] ∧
    (runPaperPipeline samplePaper 1 "CS101" (.ok ())
      (.ok (some emptyQuestionsJson)) none (.ok (fun _ => none)) 1 emptyDb
      true).paper.processing_status = .completed ∧
    (runPaperPipeline samplePaper 1 "CS101" (.ok ())
      (.ok (some emptyQuestionsJson)) none (.ok (fun _ => none)) 1 emptyDb
      true).paper.total_questions_extracted = 0 ∧
    (runPaperPipeline samplePaper 1 "CS101" (.ok ())
      (.ok (some emptyQuestionsJson)) none (.ok (fun _ => none)) 1 emptyDb
      true).httpError = none :=
  ⟨rfl, rfl, rfl, rfl⟩

/-- C7 amended: an unparseable extraction response raises an error that
fails the whole document with no Question rows persisted; an empty
extraction result, however, is not an error — the run completes (when the
remaining stages succeed) with `total_questions_extracted = 0` and no rows
persisted. -/
theorem c7_unparseable_fails_empty_succeeds (paper : PaperState) (pid : Int)
    (cc : String) (decoded : Option Json) (e0 : String)
    (syllabus : Option Syllabus)
    (classifyResp : Except String (Nat → Option LLMClassification))
    (clsMap : Nat → Option LLMClassification)
    (startId : Nat) (db : Database) (commitOk : Bool)
    (hbad : parseLLMResponse decoded = .error e0) :
    (runPaperPipeline paper pid cc (.ok ()) (.ok decoded) syllabus classifyResp
      startId db commitOk).paper.processing_status = .failed ∧
    (runPaperPipeline paper pid cc (.ok ()) (.ok decoded) syllabus classifyResp
      startId db commitOk).db = db ∧
    (runPaperPipeline paper pid cc (.ok ()) (.ok decoded) syllabus classifyResp
      startId db commitOk).httpError
      = some ("Failed to process question paper: "
          ++ ("LLM extraction failed: " ++ e0)) ∧
    (runPaperPipeline paper pid cc (.ok ()) (.ok (some emptyQuestionsJson))
      syllabus (.ok clsMap) startId db commitOk).paper.processing_status
      = .completed ∧
    (runPaperPipeline paper pid cc (.ok ()) (.ok (some emptyQuestionsJson))
      syllabus (.ok clsMap) startId db commitOk).paper.total_questions_extracted
      = 0 ∧
    (runPaperPipeline paper pid cc (.ok ()) (.ok (some emptyQuestionsJson))
      syllabus (.ok clsMap) startId db commitOk).db = db := by
  have hext : extractionStage (.ok decoded)
      = .error ("LLM extraction failed: " ++ e0) := by
    simp only [extractionStage, hbad]
  have hrun := runPaperPipeline_extraction_error paper pid cc (.ok decoded)
    syllabus classifyResp startId db commitOk hext
  have hempty := runPaperPipeline_empty_completes paper pid cc syllabus clsMap
    startId db commitOk
  rw [hrun, hempty]
  exact ⟨rfl, rfl, rfl, rfl, rfl, rfl⟩

/-- Witness for C7's amended theorem: a response that is not JSON at all. -/
theorem c7_unparseable_fails_empty_succeeds_witness :
    (runPaperPipeline samplePaper 1 "CS101" (.ok ()) (.ok none) none
      (.ok (fun _ => none)) 1 emptyDb true).paper.processing_status
      = .failed ∧
    (runPaperPipeline samplePaper 1 "CS101" (.ok ()) (.ok none) none
      (.ok (fun _ => none)) 1 emptyDb true).db = emptyDb ∧
    (runPaperPipeline samplePaper 1 "CS101" (.ok ()) (.ok none) none
      (.ok (fun _ => none)) 1 emptyDb true).httpError
      = some ("Failed to process question paper: "
          ++ ("LLM extraction failed: "
            ++ "Failed to parse LLM response as JSON")) ∧
    (runPaperPipeline samplePaper 1 "CS101" (.ok ())
      (.ok (some emptyQuestionsJson)) none (.ok (fun _ => none)) 1 emptyDb
      true).paper.processing_status = .completed ∧
    (runPaperPipeline samplePaper 1 "CS101" (.ok ())
      (.ok (some emptyQuestionsJson)) none (.ok (fun _ => none)) 1 emptyDb
      true).paper.total_questions_extracted = 0 ∧
    (runPaperPipeline samplePaper 1 "CS101" (.ok ())
      (.ok (some emptyQuestionsJson)) none (.ok (fun _ => none)) 1 emptyDb
      true).db = emptyDb :=
  c7_unparseable_fails_empty_succeeds samplePaper 1 "CS101" none
    "Failed to parse LLM response as JSON" none (.ok (fun _ => none))
    (fun _ => none) 1 emptyDb true rfl

/-- C4: when unit classification fails for one question — the LLM result
carries no entry for its index — the document is not aborted: the batch
still classifies, the failed question falls back to `unit_id = none` with
confidence 0.0 and empty tags, every other question is classified from its
own entry alone, and at persistence every question of the document is
saved, the failed one routed to review as `AMBIGUOUS_UNIT` with
priority 1. -/
theorem c4_classification_failure_degrades
    (resp : Except String (Option Json)) (qs : List ExtractedQuestion)
    (hqs : extractionStage resp = .ok qs)
    (syl : Syllabus) (hsyl : syl.units.isEmpty = false)
    (clsMap : Nat → Option LLMClassification) (i : Nat)
    (hfail : clsMap i = none) (q : ExtractedQuestion) (hi : qs[i]? = some q)
    (pid : Int) (cc : String) (startId : Nat) :
    ∃ out, classifyQuestionsWithLLM (some syl) (.ok clsMap) qs = .ok out ∧
      out.length = qs.length ∧
      out[i]? = some (unclassified q) ∧
      (∀ j : Nat, out[j]? =
        qs[j]?.map (fun p => applyClassification syl.units (clsMap j) p)) ∧
      (saveQuestionsLoop pid cc startId
        ((detectDuplicates out).map DedupedQuestion.toData)).rows.length
        = qs.length ∧
      ∃ row review,
        (saveQuestionsLoop pid cc startId
          ((detectDuplicates out).map DedupedQuestion.toData)).rows[i]?
          = some row ∧
        (saveQuestionsLoop pid cc startId
          ((detectDuplicates out).map DedupedQuestion.toData)).reviews[i]?
          = some review ∧
        row.unit_id = none ∧ row.classification_confidence = 0 ∧
        review.issue_type = "AMBIGUOUS_UNIT" ∧ review.priority = 1 := by
  have hcls : classifyQuestionsWithLLM (some syl) (.ok clsMap) qs
      = .ok (applyClassifications syl.units clsMap qs) := by
    simp [classifyQuestionsWithLLM, hsyl]
  have hgeti : (applyClassifications syl.units clsMap qs)[i]?
      = some (unclassified q) := by
    simp only [applyClassifications, applyClassificationsFrom_get,
      Nat.zero_add, hi, Option.map_some', hfail]
    rfl
  have hdi : ((detectDuplicates (applyClassifications syl.units clsMap qs)).map
      DedupedQuestion.toData)[i]? = some (DedupedQuestion.toData
        { cls := unclassified q, is_canonical := true,
          parent_question_id := none, similarity_score := none }) := by
    simp [List.getElem?_map, detectDuplicates_get, hgeti]
  obtain ⟨hrl, hvl, hpt⟩ := saveQuestionsLoop_spec pid cc
    ((detectDuplicates (applyClassifications syl.units clsMap qs)).map
      DedupedQuestion.toData) startId (pipelineData_persistable hqs hcls)
  obtain ⟨row, review, hstep, hrow, hrev⟩ := hpt i _ hdi
  have hp := pipelineData_persistable hqs hcls _ (List.getElem?_mem hdi)
  obtain ⟨_, _, _, huid, _, _, _, _, hconf, _, _, _, hvis, hvpr⟩ :=
    saveQuestionStep_spec hp hstep
  refine ⟨applyClassifications syl.units clsMap qs, hcls, ?_, hgeti, ?_, ?_,
    row, review, hrow, hrev, ?_, ?_, ?_, ?_⟩
  · simp [applyClassifications, applyClassificationsFrom_length]
  · intro j
    simp [applyClassifications, applyClassificationsFrom_get, Nat.zero_add]
  · rw [hrl]
    simp [detectDuplicates, applyClassifications,
      applyClassificationsFrom_length]
  · rw [huid]; rfl
  · rw [hconf]; rfl
  · rw [hvis]; rfl
  · rw [hvpr]; rfl

/-- Witness for C4: a one-question batch whose only classification entry is
missing. -/
theorem c4_classification_failure_degrades_witness :
    ∃ out, classifyQuestionsWithLLM (some sampleSyllabus)
        (.ok (fun _ => none)) [sampleExtracted] = .ok out ∧
      out.length = [sampleExtracted].length ∧
      out[0]? = some (unclassified sampleExtracted) ∧
      (∀ j : Nat, out[j]? =
        [sampleExtracted][j]?.map
          (fun p => applyClassification sampleSyllabus.units
            ((fun _ => none) j) p)) ∧
      (saveQuestionsLoop 1 "CS101" 1
        ((detectDuplicates out).map DedupedQuestion.toData)).rows.length
        = [sampleExtracted].length ∧
      ∃ row review,
        (saveQuestionsLoop 1 "CS101" 1
          ((detectDuplicates out).map DedupedQuestion.toData)).rows[0]?
          = some row ∧
        (saveQuestionsLoop 1 "CS101" 1
          ((detectDuplicates out).map DedupedQuestion.toData)).reviews[0]?
          = some review ∧
        row.unit_id = none ∧ row.classification_confidence = 0 ∧
        review.issue_type = "AMBIGUOUS_UNIT" ∧ review.priority = 1 :=
  c4_classification_failure_degrades (.ok (some oneQuestionJson))
    [sampleExtracted] rfl sampleSyllabus rfl (fun _ => none) 0 rfl
    sampleExtracted rfl 1 "CS101" 1

/-- C1: for every completed pipeline run, the Question rows persisted for
the paper are exactly `total_questions_extracted` many (with one review
entry per row, and all of them carrying this paper's id): every element of
the deduplicated question list results in exactly one persisted row. -/
theorem c1_persisted_count_equals_total (paper : PaperState) (pid : Int)
    (cc : String) (conversion : Except String Unit)
    (extractResp : Except String (Option Json)) (syllabus : Option Syllabus)
    (classifyResp : Except String (Nat → Option LLMClassification))
    (startId : Nat) (db : Database) (commitOk : Bool)
    (hdone : (runPaperPipeline paper pid cc conversion extractResp syllabus
      classifyResp startId db commitOk).paper.processing_status = .completed) :
    ∃ newRows newReviews,
      (runPaperPipeline paper pid cc conversion extractResp syllabus
        classifyResp startId db commitOk).db.questions
        = db.questions ++ newRows ∧
      (runPaperPipeline paper pid cc conversion extractResp syllabus
        classifyResp startId db commitOk).db.reviews
        = db.reviews ++ newReviews ∧
      newRows.length = (runPaperPipeline paper pid cc conversion extractResp
        syllabus classifyResp startId db commitOk).paper.total_questions_extracted ∧
      newReviews.length = newRows.length ∧
      ∀ r ∈ newRows, r.paper_id = pid := by
  rcases runPaperPipeline_cases paper pid cc conversion extractResp syllabus
      classifyResp startId db commitOk with ⟨e, heq⟩ |
      ⟨questions, classified, db2, rc, hE, hC, hS, heq⟩
  · rw [heq] at hdone
    simp [failRun] at hdone
  · unfold saveQuestionsTx at hS
    by_cases hq : ((detectDuplicates classified).map DedupedQuestion.toData).isEmpty
    · rw [if_pos hq] at hS
      cases hS
      have hnil : detectDuplicates classified = [] :=
        List.map_eq_nil_iff.mp (List.isEmpty_iff.mp hq)
      refine ⟨[], [], ?_, ?_, ?_, rfl, ?_⟩
      · rw [heq]; simp
      · rw [heq]; simp
      · rw [heq]; simp [hnil]
      · intro r hr; simp at hr
    · rw [if_neg hq] at hS
      cases commitOk with
      | false => cases hS
      | true =>
        cases hS
        obtain ⟨hrl, hvl, _⟩ := saveQuestionsLoop_spec pid cc
          ((detectDuplicates classified).map DedupedQuestion.toData) startId
          (pipelineData_persistable hE hC)
        refine ⟨(saveQuestionsLoop pid cc startId
            ((detectDuplicates classified).map DedupedQuestion.toData)).rows,
          (saveQuestionsLoop pid cc startId
            ((detectDuplicates classified).map DedupedQuestion.toData)).reviews,
          ?_, ?_, ?_, ?_, ?_⟩
        · rw [heq]
        · rw [heq]
        · rw [heq]
          rw [hrl]
          simp
        · rw [hvl, hrl]
        · intro r hr
          obtain ⟨q, hqmem, qid2, review, hstep⟩ := saveQuestionsLoop_rows_mem hr
          have hp := pipelineData_persistable hE hC q hqmem
          exact (saveQuestionStep_spec hp hstep).2.1

/-- Witness for C1: a completed run over an empty extraction result. -/
theorem c1_persisted_count_equals_total_witness :
    ∃ newRows newReviews,
      (runPaperPipeline samplePaper 1 "CS101" (.ok ())
        (.ok (some emptyQuestionsJson)) none (.ok (fun _ => none)) 1 emptyDb
        true).db.questions = emptyDb.questions ++ newRows ∧
      (runPaperPipeline samplePaper 1 "CS101" (.ok ())
        (.ok (some emptyQuestionsJson)) none (.ok (fun _ => none)) 1 emptyDb
        true).db.reviews = emptyDb.reviews ++ newReviews ∧
      newRows.length = (runPaperPipeline samplePaper 1 "CS101" (.ok ())
        (.ok (some emptyQuestionsJson)) none (.ok (fun _ => none)) 1 emptyDb
        true).paper.total_questions_extracted ∧
      newReviews.length = newRows.length ∧
      ∀ r ∈ newRows, r.paper_id = 1 :=
  c1_persisted_count_equals_total samplePaper 1 "CS101" (.ok ())
    (.ok (some emptyQuestionsJson)) none (.ok (fun _ => none)) 1 emptyDb
    true rfl

end QPSeg
